import Mathlib

/-!
Verification of the HR_Comparator_CRUD_Backend excerpt: a shallow embedding of
`metrics.py` (a Prometheus-style metrics registry with thin recording helpers)
and of the connection-option selection in `database.py`.

The registry is modelled as an explicit state record.  Counters are label-indexed
natural numbers, gauges are label-indexed integers, and histograms are lists of
the rational values observed so far (the bucket structure is recovered from the
declared boundary lists by `bucketIndex`).  Each helper function of `metrics.py`
becomes a pure state-transformer translated line by line from the source.
-/

/-- Increment a singly-labeled counter family at label `k` (the effect of
`counter.labels(k).inc()`). -/
def upd1 (f : String → Nat) (k : String) : String → Nat :=
  fun x => if x = k then f x + 1 else f x

/-- Increment a doubly-labeled counter family at labels `(k1, k2)` (the effect
of `counter.labels(k1, k2).inc()`). -/
def upd2 (f : String → String → Nat) (k1 k2 : String) : String → String → Nat :=
  fun x y => if x = k1 ∧ y = k2 then f x y + 1 else f x y

/-- Set a labeled gauge family at label `k` to value `v` (the effect of
`gauge.labels(k).set(v)`). -/
def gset (f : String → Int) (k : String) (v : Int) : String → Int :=
  fun x => if x = k then v else f x

/-- The whole mutable state of the metrics registry of `metrics.py`: one field
per instrument declared at module load.  Counter families are maps from label
values to counts, gauges hold integers, histogram families hold the list of
observations recorded per label combination. -/
structure MetricsState where
  resume_uploads_total : String → String → Nat      -- labels: status, file_type
  resume_parse_duration : String → List ℚ           -- label: file_type
  resumes_total : Int
  jd_created_total : String → Nat                   -- label: status
  jd_total : Int
  matching_requests_total : String → String → Nat   -- labels: status, source
  matching_duration : String → List ℚ               -- label: batch_size
  ai_agent_calls_total : String → String → Nat      -- labels: endpoint, status
  ai_agent_latency : String → List ℚ                -- label: endpoint
  match_scores : List ℚ
  candidates_by_fit : String → Int                  -- label: category
  user_logins_total : String → Nat                  -- label: status
  active_users : Int
  user_registrations_total : String → Nat           -- label: status
  workflows_started_total : String → Nat            -- label: type
  workflows_completed_total : String → Nat          -- label: status
  workflow_duration : String → List ℚ               -- label: resume_count
  workflow_in_progress : Int
  file_storage_bytes : String → Int                 -- label: type
  file_operations_total : String → String → Nat     -- labels: operation, status
  db_operations_total : String → String → Nat       -- labels: collection, operation
  db_operation_duration : String → String → List ℚ  -- labels: collection, operation

/-- A freshly created registry: every counter 0, every gauge 0, every histogram
empty, as all instruments are when the module has just been loaded. -/
def freshState : MetricsState where
  resume_uploads_total := fun _ _ => 0
  resume_parse_duration := fun _ => []
  resumes_total := 0
  jd_created_total := fun _ => 0
  jd_total := 0
  matching_requests_total := fun _ _ => 0
  matching_duration := fun _ => []
  ai_agent_calls_total := fun _ _ => 0
  ai_agent_latency := fun _ => []
  match_scores := []
  candidates_by_fit := fun _ => 0
  user_logins_total := fun _ => 0
  active_users := 0
  user_registrations_total := fun _ => 0
  workflows_started_total := fun _ => 0
  workflows_completed_total := fun _ => 0
  workflow_duration := fun _ => []
  workflow_in_progress := 0
  file_storage_bytes := fun _ => 0
  file_operations_total := fun _ _ => 0
  db_operations_total := fun _ _ => 0
  db_operation_duration := fun _ _ => []

/-- Declared bucket boundaries of the `hr_ai_agent_latency_seconds` histogram. -/
def aiAgentLatencyBuckets : List ℚ := [1, 5, 10, 30, 60, 120, 300]

/-- Declared bucket boundaries of the `hr_match_scores` histogram. -/
def matchScoreBuckets : List ℚ := [10, 20, 30, 40, 50, 60, 70, 80, 90, 100]

/-- Index of the histogram bucket an observed value falls into: the first
declared upper boundary that is `≥ v`; if `v` exceeds every declared boundary
the result is the list length, denoting the implicit `+Inf` overflow bucket. -/
def bucketIndex (buckets : List ℚ) (v : ℚ) : Nat :=
  match buckets with
  | [] => 0
  | b :: bs => if v ≤ b then 0 else bucketIndex bs v + 1

/-- How many recorded observations fall into bucket `i` of a histogram with
boundaries `buckets`. -/
def bucketCount (obs : List ℚ) (buckets : List ℚ) (i : Nat) : Nat :=
  (obs.filter (fun v => bucketIndex buckets v == i)).length

/-- `track_resume_upload(success, file_type)` from `metrics.py`. -/
def track_resume_upload (s : MetricsState) (success : Bool) (file_type : String) :
    MetricsState :=
  let status := if success then "success" else "failed"
  { s with resume_uploads_total := upd2 s.resume_uploads_total status file_type }

/-- `track_matching_request(success, source='manual')` from `metrics.py`. -/
def track_matching_request (s : MetricsState) (success : Bool)
    (source : optParam String "manual") : MetricsState :=
  let status := if success then "success" else "failed"
  { s with matching_requests_total := upd2 s.matching_requests_total status source }

/-- `track_ai_agent_call(endpoint, success, duration)` from `metrics.py`:
increments the call counter and records a latency observation, in one step. -/
def track_ai_agent_call (s : MetricsState) (endpoint : String) (success : Bool)
    (duration : ℚ) : MetricsState :=
  let status := if success then "success" else "failed"
  { s with
    ai_agent_calls_total := upd2 s.ai_agent_calls_total endpoint status,
    ai_agent_latency := fun e =>
      if e = endpoint then duration :: s.ai_agent_latency e else s.ai_agent_latency e }

/-- `track_match_score(score)` from `metrics.py`. -/
def track_match_score (s : MetricsState) (score : ℚ) : MetricsState :=
  { s with match_scores := score :: s.match_scores }

/-- `update_fit_categories(best_fit, partial_fit, not_fit)` from `metrics.py`:
three successive `gauge.labels(category).set(...)` calls. -/
def update_fit_categories (s : MetricsState) (best_fit part_fit not_fit : Int) :
    MetricsState :=
  { s with
    candidates_by_fit :=
      gset (gset (gset s.candidates_by_fit "Best Fit" best_fit)
        "Partial Fit" part_fit) "Not Fit" not_fit }

/-- `track_user_login(success)` from `metrics.py`. -/
def track_user_login (s : MetricsState) (success : Bool) : MetricsState :=
  let status := if success then "success" else "failed"
  { s with user_logins_total := upd1 s.user_logins_total status }

/-- `track_workflow(started=False, completed=False, status='success',
workflow_type='manual')` from `metrics.py`: the two `if` branches of the
source, applied in order, with the source's default argument values. -/
def track_workflow (s : MetricsState) (started : optParam Bool false)
    (completed : optParam Bool false) (status : optParam String "success")
    (workflow_type : optParam String "manual") : MetricsState :=
  let s1 := if started then
      { s with
        workflows_started_total := upd1 s.workflows_started_total workflow_type,
        workflow_in_progress := s.workflow_in_progress + 1 }
    else s
  if completed then
    { s1 with
      workflows_completed_total := upd1 s1.workflows_completed_total status,
      workflow_in_progress := s1.workflow_in_progress - 1 }
  else s1

/-- Apply a sequence of `track_resume_upload` calls, each given as
`(success, file_type)`, left to right. -/
def applyUploads (s : MetricsState) : List (Bool × String) → MetricsState
  | [] => s
  | c :: cs => applyUploads (track_resume_upload s c.1 c.2) cs

/-- The single counter series a `track_resume_upload(success, file_type)` call
touches: labels `(status, file_type)` with the status derived from `success`. -/
def uploadKey (c : Bool × String) : String × String :=
  ((if c.1 then "success" else "failed"), c.2)

/-- Apply a sequence of `track_workflow` calls, each given as
`(started, completed, status, workflow_type)`, left to right. -/
def applyWorkflows (s : MetricsState) :
    List (Bool × Bool × String × String) → MetricsState
  | [] => s
  | c :: cs => applyWorkflows (track_workflow s c.1 c.2.1 c.2.2.1 c.2.2.2) cs

/-- Number of calls in a `track_workflow` call sequence with `started = true`. -/
def startedCount (cs : List (Bool × Bool × String × String)) : Nat :=
  (cs.filter (fun c => c.1)).length

/-- Number of calls in a `track_workflow` call sequence with `completed = true`. -/
def completedCount (cs : List (Bool × Bool × String × String)) : Nat :=
  (cs.filter (fun c => c.2.1)).length

/-- `pat` occurs at the head of `hay` (character lists). -/
def charsLead : List Char → List Char → Bool
  | [], _ => true
  | _ :: _, [] => false
  | p :: ps, h :: hs => p == h && charsLead ps hs

/-- `pat` occurs contiguously somewhere in `hay` (character lists). -/
def charsIn (pat : List Char) : List Char → Bool
  | [] => pat.isEmpty
  | h :: hs => charsLead pat (h :: hs) || charsIn pat hs

/-- Python's substring test `pat in hay` on strings, as used in `database.py`. -/
def pyIn (pat hay : String) : Bool := charsIn pat.data hay.data

/-- The MongoDB client keyword options that `database.py` may pass: each field
is `none` when the corresponding key is absent from the `connection_options`
dict. -/
structure ConnectionOptions where
  serverSelectionTimeoutMS : Option Nat
  connectTimeoutMS : Option Nat
  socketTimeoutMS : Option Nat
  retryWrites : Option Bool
  tls : Option Bool
  tlsAllowInvalidCertificates : Option Bool
deriving DecidableEq

/-- The empty `connection_options = {}` dict. -/
def emptyOptions : ConnectionOptions :=
  ⟨none, none, none, none, none, none⟩

/-- The options dict built for `mongodb+srv://` URLs in `database.py`. -/
def srvOptions : ConnectionOptions where
  serverSelectionTimeoutMS := some 30000
  connectTimeoutMS := some 20000
  socketTimeoutMS := some 20000
  retryWrites := some true
  tls := none
  tlsAllowInvalidCertificates := none

/-- The options dict built for non-SRV Atlas URLs (`mongodb://` and
`mongodb.net` both present) in `database.py`. -/
def atlasOptions : ConnectionOptions where
  serverSelectionTimeoutMS := some 30000
  connectTimeoutMS := some 20000
  socketTimeoutMS := some 20000
  retryWrites := some true
  tls := some true
  tlsAllowInvalidCertificates := some false

/-- The module-load computation of `connection_options` in `database.py`,
as a function of the `MONGODB_URL` environment string: an `if`/`elif` chain
of Python substring tests. -/
def connection_options (url : String) : ConnectionOptions :=
  if pyIn "mongodb+srv://" url then srvOptions
  else if pyIn "mongodb://" url && pyIn "mongodb.net" url then atlasOptions
  else emptyOptions

/-- A MongoDB client as `database.py` constructs it: the URL together with the
keyword options passed. -/
structure MongoClientModel where
  url : String
  options : ConnectionOptions
deriving DecidableEq

/-- The synchronous client `MongoClient(MONGODB_URL, **connection_options)`. -/
def client (url : String) : MongoClientModel :=
  ⟨url, connection_options url⟩

/-- The asynchronous client
`AsyncIOMotorClient(MONGODB_URL, **connection_options)`. -/
def async_client (url : String) : MongoClientModel :=
  ⟨url, connection_options url⟩

/-- Every counter series of state `s` is at most the corresponding series of
state `t`: one clause per `Counter` instrument declared in `metrics.py`. -/
def countersLE (s t : MetricsState) : Prop :=
  (∀ a b, s.resume_uploads_total a b ≤ t.resume_uploads_total a b) ∧
  (∀ a, s.jd_created_total a ≤ t.jd_created_total a) ∧
  (∀ a b, s.matching_requests_total a b ≤ t.matching_requests_total a b) ∧
  (∀ a b, s.ai_agent_calls_total a b ≤ t.ai_agent_calls_total a b) ∧
  (∀ a, s.user_logins_total a ≤ t.user_logins_total a) ∧
  (∀ a, s.user_registrations_total a ≤ t.user_registrations_total a) ∧
  (∀ a, s.workflows_started_total a ≤ t.workflows_started_total a) ∧
  (∀ a, s.workflows_completed_total a ≤ t.workflows_completed_total a) ∧
  (∀ a b, s.file_operations_total a b ≤ t.file_operations_total a b) ∧
  (∀ a b, s.db_operations_total a b ≤ t.db_operations_total a b)

/-!  Helper lemmas shared by the claim theorems. -/

theorem upd1_apply (f : String → Nat) (k x : String) :
    upd1 f k x = f x + (if x = k then 1 else 0) := by
  unfold upd1; split <;> simp

theorem upd2_apply (f : String → String → Nat) (k1 k2 x y : String) :
    upd2 f k1 k2 x y = f x y + (if x = k1 ∧ y = k2 then 1 else 0) := by
  unfold upd2; split <;> simp_all

/-- Net effect of one `track_workflow` call on the in-progress gauge. -/
theorem track_workflow_wip (s : MetricsState) (started completed : Bool)
    (status workflow_type : String) :
    (track_workflow s started completed status workflow_type).workflow_in_progress
      = s.workflow_in_progress + (if started then 1 else 0)
        - (if completed then 1 else 0) := by
  cases started <;> cases completed <;> simp [track_workflow]

/-- The in-progress gauge after a sequence of `track_workflow` calls is the
initial value plus the number of started flags minus the number of completed
flags. -/
theorem applyWorkflows_wip (cs : List (Bool × Bool × String × String)) :
    ∀ s : MetricsState,
      (applyWorkflows s cs).workflow_in_progress
        = s.workflow_in_progress + startedCount cs - completedCount cs := by
  induction cs with
  | nil => intro s; simp [applyWorkflows, startedCount, completedCount]
  | cons c cs ih =>
    intro s
    have h1 : startedCount (c :: cs)
        = (if c.1 then 1 else 0) + startedCount cs := by
      simp [startedCount, List.filter_cons]; split <;> simp [Nat.add_comm]
    have h2 : completedCount (c :: cs)
        = (if c.2.1 then 1 else 0) + completedCount cs := by
      simp [completedCount, List.filter_cons]; split <;> simp [Nat.add_comm]
    show (applyWorkflows (track_workflow s c.1 c.2.1 c.2.2.1 c.2.2.2) cs).workflow_in_progress = _
    rw [ih, track_workflow_wip, h1, h2]
    cases hc1 : c.1 <;> cases hc2 : c.2.1 <;> push_cast <;> ring

/-- One `track_resume_upload` call raises the sum of the uploads counter over
any label set containing the series it touches by exactly 1. -/
theorem upload_sum_step (s : MetricsState) (b : Bool) (ft : String)
    (S : Finset (String × String)) (h : uploadKey (b, ft) ∈ S) :
    (S.sum fun p => (track_resume_upload s b ft).resume_uploads_total p.1 p.2)
      = (S.sum fun p => s.resume_uploads_total p.1 p.2) + 1 := by
  have hrw : (fun p : String × String =>
        (track_resume_upload s b ft).resume_uploads_total p.1 p.2)
      = fun p => s.resume_uploads_total p.1 p.2
          + (if p = uploadKey (b, ft) then 1 else 0) := by
    funext p
    simp [track_resume_upload, upd2_apply, uploadKey, Prod.ext_iff]
  rw [hrw, Finset.sum_add_distrib, Finset.sum_ite_eq' S (uploadKey (b, ft)), if_pos h]

/-- The sum of the uploads counter over a covering label set grows by the
number of calls applied. -/
theorem applyUploads_sum (cs : List (Bool × String)) :
    ∀ (s : MetricsState) (S : Finset (String × String)),
      (∀ c ∈ cs, uploadKey c ∈ S) →
      (S.sum fun p => (applyUploads s cs).resume_uploads_total p.1 p.2)
        = (S.sum fun p => s.resume_uploads_total p.1 p.2) + cs.length := by
  induction cs with
  | nil => intro s S _; simp [applyUploads]
  | cons c cs ih =>
    intro s S hS
    show (S.sum fun p => (applyUploads (track_resume_upload s c.1 c.2) cs).resume_uploads_total p.1 p.2) = _
    rw [ih (track_resume_upload s c.1 c.2) S (fun d hd => hS d (List.mem_cons_of_mem c hd)),
      upload_sum_step s c.1 c.2 S (hS c (List.mem_cons_self c cs))]
    simp [Nat.add_assoc, Nat.add_comm]

/-- A value strictly above every declared boundary lands in the implicit
overflow bucket, whose index is the number of declared boundaries. -/
theorem bucketIndex_of_gt (v : ℚ) :
    ∀ buckets : List ℚ, (∀ b ∈ buckets, b < v) →
      bucketIndex buckets v = buckets.length := by
  intro buckets
  induction buckets with
  | nil => intro _; rfl
  | cons b bs ih =>
    intro h
    have hb : b < v := h b (List.mem_cons_self b bs)
    simp only [bucketIndex, if_neg (not_le.mpr hb), List.length_cons]
    rw [ih (fun x hx => h x (List.mem_cons_of_mem b hx))]

/-!  Claim theorems. -/

/-- C1: a `track_workflow(started, completed, status, workflow_type)` call
increments `WorkflowsStarted{type}` and the in-progress gauge exactly when
`started` is true, increments `WorkflowsCompleted{status}` and decrements the
in-progress gauge exactly when `completed` is true, and changes nothing else:
every other instrument field is left untouched. -/
theorem c1_track_workflow_effects (s : MetricsState) (started completed : Bool)
    (status workflow_type : String) :
    (∀ t, (track_workflow s started completed status workflow_type).workflows_started_total t
        = s.workflows_started_total t + (if started = true ∧ t = workflow_type then 1 else 0)) ∧
    (∀ st, (track_workflow s started completed status workflow_type).workflows_completed_total st
        = s.workflows_completed_total st + (if completed = true ∧ st = status then 1 else 0)) ∧
    (track_workflow s started completed status workflow_type).workflow_in_progress
        = s.workflow_in_progress + (if started then 1 else 0) - (if completed then 1 else 0) ∧
    (track_workflow s started completed status workflow_type).resume_uploads_total = s.resume_uploads_total ∧
    (track_workflow s started completed status workflow_type).resume_parse_duration = s.resume_parse_duration ∧
    (track_workflow s started completed status workflow_type).resumes_total = s.resumes_total ∧
    (track_workflow s started completed status workflow_type).jd_created_total = s.jd_created_total ∧
    (track_workflow s started completed status workflow_type).jd_total = s.jd_total ∧
    (track_workflow s started completed status workflow_type).matching_requests_total = s.matching_requests_total ∧
    (track_workflow s started completed status workflow_type).matching_duration = s.matching_duration ∧
    (track_workflow s started completed status workflow_type).ai_agent_calls_total = s.ai_agent_calls_total ∧
    (track_workflow s started completed status workflow_type).ai_agent_latency = s.ai_agent_latency ∧
    (track_workflow s started completed status workflow_type).match_scores = s.match_scores ∧
    (track_workflow s started completed status workflow_type).candidates_by_fit = s.candidates_by_fit ∧
    (track_workflow s started completed status workflow_type).user_logins_total = s.user_logins_total ∧
    (track_workflow s started completed status workflow_type).active_users = s.active_users ∧
    (track_workflow s started completed status workflow_type).user_registrations_total = s.user_registrations_total ∧
    (track_workflow s started completed status workflow_type).workflow_duration = s.workflow_duration ∧
    (track_workflow s started completed status workflow_type).file_storage_bytes = s.file_storage_bytes ∧
    (track_workflow s started completed status workflow_type).file_operations_total = s.file_operations_total ∧
    (track_workflow s started completed status workflow_type).db_operations_total = s.db_operations_total ∧
    (track_workflow s started completed status workflow_type).db_operation_duration = s.db_operation_duration := by
  cases started <;> cases completed <;>
    refine ⟨fun t => ?_, fun st => ?_, ?_, rfl, rfl, rfl, rfl, rfl, rfl, rfl, rfl,
      rfl, rfl, rfl, rfl, rfl, rfl, rfl, rfl, rfl, rfl, rfl⟩ <;>
    simp [track_workflow, upd1_apply]

/-- C2: a started-only `track_workflow` call followed by a completed-only call
restores the in-progress gauge, and any call sequence with equally many
`started = true` and `completed = true` flags returns `WorkflowsInProgress` to
its pre-sequence baseline. -/
theorem c2_workflow_in_progress_balanced :
    (∀ s : MetricsState,
      (track_workflow (track_workflow s true false "success" "manual")
          false true "success" "manual").workflow_in_progress
        = s.workflow_in_progress) ∧
    (∀ (s : MetricsState) (cs : List (Bool × Bool × String × String)),
      startedCount cs = completedCount cs →
      (applyWorkflows s cs).workflow_in_progress = s.workflow_in_progress) := by
  constructor
  · intro s
    rw [track_workflow_wip, track_workflow_wip]
    simp
  · intro s cs h
    rw [applyWorkflows_wip, h]
    ring

/-- Witness for C2 at a concrete matched start/complete pair. -/
theorem c2_workflow_in_progress_balanced_witness :
    startedCount [(true, false, "success", "manual"), (false, true, "success", "manual")]
      = completedCount [(true, false, "success", "manual"), (false, true, "success", "manual")] ∧
    (applyWorkflows freshState
        [(true, false, "success", "manual"), (false, true, "success", "manual")]).workflow_in_progress
      = freshState.workflow_in_progress :=
  ⟨by decide, c2_workflow_in_progress_balanced.2 freshState _ (by decide)⟩

/-- C3: one `track_ai_agent_call(endpoint, success, duration)` call increments
`AIAgentCalls{endpoint, status}` by 1 with the status derived from `success`,
appends exactly one `duration` observation to `AIAgentLatency{endpoint}`, and
touches nothing else; concretely, from a fresh registry,
`track_ai_agent_call("compare-batch", true, 2.5)` yields a call count of 1 and
one latency observation in the bucket covering 2.5 (boundary 5, index 1). -/
theorem c3_track_ai_agent_call_effects :
    (∀ (s : MetricsState) (endpoint : String) (success : Bool) (duration : ℚ),
      (∀ e st, (track_ai_agent_call s endpoint success duration).ai_agent_calls_total e st
          = s.ai_agent_calls_total e st
            + (if e = endpoint ∧ st = (if success then "success" else "failed") then 1 else 0)) ∧
      (∀ e, (track_ai_agent_call s endpoint success duration).ai_agent_latency e
          = if e = endpoint then duration :: s.ai_agent_latency e else s.ai_agent_latency e) ∧
      (track_ai_agent_call s endpoint success duration).resume_uploads_total = s.resume_uploads_total ∧
      (track_ai_agent_call s endpoint success duration).resume_parse_duration = s.resume_parse_duration ∧
      (track_ai_agent_call s endpoint success duration).resumes_total = s.resumes_total ∧
      (track_ai_agent_call s endpoint success duration).jd_created_total = s.jd_created_total ∧
      (track_ai_agent_call s endpoint success duration).jd_total = s.jd_total ∧
      (track_ai_agent_call s endpoint success duration).matching_requests_total = s.matching_requests_total ∧
      (track_ai_agent_call s endpoint success duration).matching_duration = s.matching_duration ∧
      (track_ai_agent_call s endpoint success duration).match_scores = s.match_scores ∧
      (track_ai_agent_call s endpoint success duration).candidates_by_fit = s.candidates_by_fit ∧
      (track_ai_agent_call s endpoint success duration).user_logins_total = s.user_logins_total ∧
      (track_ai_agent_call s endpoint success duration).active_users = s.active_users ∧
      (track_ai_agent_call s endpoint success duration).user_registrations_total = s.user_registrations_total ∧
      (track_ai_agent_call s endpoint success duration).workflows_started_total = s.workflows_started_total ∧
      (track_ai_agent_call s endpoint success duration).workflows_completed_total = s.workflows_completed_total ∧
      (track_ai_agent_call s endpoint success duration).workflow_duration = s.workflow_duration ∧
      (track_ai_agent_call s endpoint success duration).workflow_in_progress = s.workflow_in_progress ∧
      (track_ai_agent_call s endpoint success duration).file_storage_bytes = s.file_storage_bytes ∧
      (track_ai_agent_call s endpoint success duration).file_operations_total = s.file_operations_total ∧
      (track_ai_agent_call s endpoint success duration).db_operations_total = s.db_operations_total ∧
      (track_ai_agent_call s endpoint success duration).db_operation_duration = s.db_operation_duration) ∧
    ((track_ai_agent_call freshState "compare-batch" true (5/2)).ai_agent_calls_total
        "compare-batch" "success" = 1 ∧
      bucketIndex aiAgentLatencyBuckets (5/2) = 1 ∧
      bucketCount
          ((track_ai_agent_call freshState "compare-batch" true (5/2)).ai_agent_latency
            "compare-batch")
          aiAgentLatencyBuckets (bucketIndex aiAgentLatencyBuckets (5/2)) = 1) := by
  constructor
  · intro s endpoint success duration
    refine ⟨fun e st => ?_, fun e => rfl, rfl, rfl, rfl, rfl, rfl, rfl, rfl, rfl, rfl,
      rfl, rfl, rfl, rfl, rfl, rfl, rfl, rfl, rfl, rfl, rfl⟩
    cases success <;> simp [track_ai_agent_call, upd2_apply]
  · refine ⟨by decide, by norm_num [bucketIndex, aiAgentLatencyBuckets], ?_⟩
    norm_num [bucketCount, bucketIndex, aiAgentLatencyBuckets, track_ai_agent_call,
      freshState, List.filter]

/-- C4: each `track_resume_upload(success, file_type)` call increments exactly
the one `ResumeUploads` series labeled with the derived status and the given
file type, by exactly 1; and after any sequence of N calls from a fresh
registry the counter summed over a label set covering every touched series
equals N. -/
theorem c4_resume_uploads_sum :
    (∀ (s : MetricsState) (success : Bool) (file_type : String) (a b : String),
      (track_resume_upload s success file_type).resume_uploads_total a b
        = s.resume_uploads_total a b
          + (if a = (if success then "success" else "failed") ∧ b = file_type then 1 else 0)) ∧
    (∀ (cs : List (Bool × String)) (S : Finset (String × String)),
      (∀ c ∈ cs, uploadKey c ∈ S) →
      (S.sum fun p => (applyUploads freshState cs).resume_uploads_total p.1 p.2)
        = cs.length) := by
  constructor
  · intro s success file_type a b
    simp [track_resume_upload, upd2_apply]
  · intro cs S hS
    rw [applyUploads_sum cs freshState S hS]
    simp [freshState]

/-- Witness for C4: three concrete calls over a two-series label set sum to 3. -/
theorem c4_resume_uploads_sum_witness :
    (uploadKey (true, "pdf") ∈ ({("success", "pdf"), ("failed", "docx")} : Finset (String × String)) ∧
      uploadKey (false, "docx") ∈ ({("success", "pdf"), ("failed", "docx")} : Finset (String × String))) ∧
    (({("success", "pdf"), ("failed", "docx")} : Finset (String × String)).sum
        fun p => (applyUploads freshState
          [(true, "pdf"), (false, "docx"), (true, "pdf")]).resume_uploads_total p.1 p.2)
      = 3 :=
  ⟨by decide, c4_resume_uploads_sum.2 [(true, "pdf"), (false, "docx"), (true, "pdf")] _ (by decide)⟩

/-- C5: `update_fit_categories(best_fit, partial_fit, not_fit)` overwrites the
three `CandidatesByFit` series with exactly the given values, independent of
the previous gauge state, and touches no other instrument; in particular
`update_fit_categories(3,1,2)` then `update_fit_categories(0,0,0)` leaves all
three series at 0. -/
theorem c5_update_fit_categories_overwrite :
    (∀ (s : MetricsState) (best_fit part_fit not_fit : Int),
      (update_fit_categories s best_fit part_fit not_fit).candidates_by_fit "Best Fit" = best_fit ∧
      (update_fit_categories s best_fit part_fit not_fit).candidates_by_fit "Partial Fit" = part_fit ∧
      (update_fit_categories s best_fit part_fit not_fit).candidates_by_fit "Not Fit" = not_fit ∧
      (update_fit_categories s best_fit part_fit not_fit).resume_uploads_total = s.resume_uploads_total ∧
      (update_fit_categories s best_fit part_fit not_fit).resume_parse_duration = s.resume_parse_duration ∧
      (update_fit_categories s best_fit part_fit not_fit).resumes_total = s.resumes_total ∧
      (update_fit_categories s best_fit part_fit not_fit).jd_created_total = s.jd_created_total ∧
      (update_fit_categories s best_fit part_fit not_fit).jd_total = s.jd_total ∧
      (update_fit_categories s best_fit part_fit not_fit).matching_requests_total = s.matching_requests_total ∧
      (update_fit_categories s best_fit part_fit not_fit).matching_duration = s.matching_duration ∧
      (update_fit_categories s best_fit part_fit not_fit).ai_agent_calls_total = s.ai_agent_calls_total ∧
      (update_fit_categories s best_fit part_fit not_fit).ai_agent_latency = s.ai_agent_latency ∧
      (update_fit_categories s best_fit part_fit not_fit).match_scores = s.match_scores ∧
      (update_fit_categories s best_fit part_fit not_fit).user_logins_total = s.user_logins_total ∧
      (update_fit_categories s best_fit part_fit not_fit).active_users = s.active_users ∧
      (update_fit_categories s best_fit part_fit not_fit).user_registrations_total = s.user_registrations_total ∧
      (update_fit_categories s best_fit part_fit not_fit).workflows_started_total = s.workflows_started_total ∧
      (update_fit_categories s best_fit part_fit not_fit).workflows_completed_total = s.workflows_completed_total ∧
      (update_fit_categories s best_fit part_fit not_fit).workflow_duration = s.workflow_duration ∧
      (update_fit_categories s best_fit part_fit not_fit).workflow_in_progress = s.workflow_in_progress ∧
      (update_fit_categories s best_fit part_fit not_fit).file_storage_bytes = s.file_storage_bytes ∧
      (update_fit_categories s best_fit part_fit not_fit).file_operations_total = s.file_operations_total ∧
      (update_fit_categories s best_fit part_fit not_fit).db_operations_total = s.db_operations_total ∧
      (update_fit_categories s best_fit part_fit not_fit).db_operation_duration = s.db_operation_duration) ∧
    (∀ s : MetricsState,
      (update_fit_categories s 3 1 2).candidates_by_fit "Best Fit" = 3 ∧
      (update_fit_categories s 3 1 2).candidates_by_fit "Partial Fit" = 1 ∧
      (update_fit_categories s 3 1 2).candidates_by_fit "Not Fit" = 2 ∧
      (update_fit_categories (update_fit_categories s 3 1 2) 0 0 0).candidates_by_fit "Best Fit" = 0 ∧
      (update_fit_categories (update_fit_categories s 3 1 2) 0 0 0).candidates_by_fit "Partial Fit" = 0 ∧
      (update_fit_categories (update_fit_categories s 3 1 2) 0 0 0).candidates_by_fit "Not Fit" = 0) := by
  constructor
  · intro s best_fit part_fit not_fit
    refine ⟨?_, ?_, ?_, rfl, rfl, rfl, rfl, rfl, rfl, rfl, rfl, rfl, rfl, rfl,
      rfl, rfl, rfl, rfl, rfl, rfl, rfl, rfl, rfl, rfl⟩ <;>
      simp [update_fit_categories, gset]
  · intro s
    refine ⟨?_, ?_, ?_, ?_, ?_, ?_⟩ <;> simp [update_fit_categories, gset]

/-- C6: no public recording operation ever decreases any counter series: after
any of the seven helpers, with any arguments, every `Counter` instrument's
value at every label combination is at least its previous value. -/
theorem c6_counters_monotone (s : MetricsState) :
    (∀ (b : Bool) (ft : String), countersLE s (track_resume_upload s b ft)) ∧
    (∀ (b : Bool) (src : String), countersLE s (track_matching_request s b src)) ∧
    (∀ (e : String) (b : Bool) (d : ℚ), countersLE s (track_ai_agent_call s e b d)) ∧
    (∀ q : ℚ, countersLE s (track_match_score s q)) ∧
    (∀ bf pf nf : Int, countersLE s (update_fit_categories s bf pf nf)) ∧
    (∀ b : Bool, countersLE s (track_user_login s b)) ∧
    (∀ (st cp : Bool) (stat wt : String), countersLE s (track_workflow s st cp stat wt)) := by
  refine ⟨fun b ft => ?_, fun b src => ?_, fun e b d => ?_, fun q => ?_,
    fun bf pf nf => ?_, fun b => ?_, fun st cp stat wt => ?_⟩
  · unfold countersLE
    refine ⟨?_, ?_, ?_, ?_, ?_, ?_, ?_, ?_, ?_, ?_⟩ <;> intros <;>
      simp [track_resume_upload, upd2_apply]
  · unfold countersLE
    refine ⟨?_, ?_, ?_, ?_, ?_, ?_, ?_, ?_, ?_, ?_⟩ <;> intros <;>
      simp [track_matching_request, upd2_apply]
  · unfold countersLE
    refine ⟨?_, ?_, ?_, ?_, ?_, ?_, ?_, ?_, ?_, ?_⟩ <;> intros <;>
      simp [track_ai_agent_call, upd2_apply]
  · unfold countersLE
    refine ⟨?_, ?_, ?_, ?_, ?_, ?_, ?_, ?_, ?_, ?_⟩ <;> intros <;>
      simp [track_match_score]
  · unfold countersLE
    refine ⟨?_, ?_, ?_, ?_, ?_, ?_, ?_, ?_, ?_, ?_⟩ <;> intros <;>
      simp [update_fit_categories]
  · unfold countersLE
    refine ⟨?_, ?_, ?_, ?_, ?_, ?_, ?_, ?_, ?_, ?_⟩ <;> intros <;>
      simp [track_user_login, upd1_apply]
  · unfold countersLE
    cases st <;> cases cp <;>
      refine ⟨?_, ?_, ?_, ?_, ?_, ?_, ?_, ?_, ?_, ?_⟩ <;> intros <;>
        simp [track_workflow, upd1_apply]

/-- C7: `track_match_score` is total: it records any rational score, including
values outside 0–100, without validation; a score above the highest declared
`MatchScores` boundary (100) lands in the implicit overflow bucket (index =
number of declared boundaries), as the concrete observation of 150 shows. -/
theorem c7_track_match_score_total :
    (∀ (s : MetricsState) (score : ℚ),
      (track_match_score s score).match_scores = score :: s.match_scores) ∧
    (∀ score : ℚ, 100 < score →
      bucketIndex matchScoreBuckets score = matchScoreBuckets.length) ∧
    bucketCount ((track_match_score freshState 150).match_scores) matchScoreBuckets
      matchScoreBuckets.length = 1 := by
  refine ⟨fun s score => rfl, fun score h => ?_, ?_⟩
  · apply bucketIndex_of_gt
    intro b hb
    simp [matchScoreBuckets] at hb
    rcases hb with h1 | h1 | h1 | h1 | h1 | h1 | h1 | h1 | h1 | h1 <;> rw [h1] <;> linarith
  · norm_num [bucketCount, bucketIndex, matchScoreBuckets, track_match_score,
      freshState, List.filter]

/-- Witness for C7 at the concrete out-of-range score 150. -/
theorem c7_track_match_score_total_witness :
    (100 : ℚ) < 150 ∧ bucketIndex matchScoreBuckets 150 = matchScoreBuckets.length :=
  ⟨by norm_num, c7_track_match_score_total.2.1 150 (by norm_num)⟩

/-- C9: `track_workflow` called with no arguments uses the source defaults
`started = False`, `completed = False` and is a no-op: the resulting registry
state is exactly the previous state, so every instrument keeps its value. -/
theorem c9_track_workflow_noargs_noop :
    ∀ s : MetricsState,
      track_workflow s = s ∧ track_workflow s false false "success" "manual" = s :=
  fun _ => ⟨rfl, rfl⟩

/-- C10: the MongoDB connection options are a pure function of the URL string,
shared by the synchronous and asynchronous clients: an SRV URL selects the
timeout/retry options with no explicit `tls` key, a non-SRV URL containing
both `mongodb://` and `mongodb.net` additionally sets `tls = True` and
`tlsAllowInvalidCertificates = False`, and every other URL yields the empty
options dict. -/
theorem c10_connection_options_by_url :
    ∀ url : String,
      (client url).options = connection_options url ∧
      (async_client url).options = connection_options url ∧
      (pyIn "mongodb+srv://" url = true →
        connection_options url
          = { serverSelectionTimeoutMS := some 30000, connectTimeoutMS := some 20000,
              socketTimeoutMS := some 20000, retryWrites := some true,
              tls := none, tlsAllowInvalidCertificates := none }) ∧
      (pyIn "mongodb+srv://" url = false → pyIn "mongodb://" url = true →
        pyIn "mongodb.net" url = true →
        connection_options url
          = { serverSelectionTimeoutMS := some 30000, connectTimeoutMS := some 20000,
              socketTimeoutMS := some 20000, retryWrites := some true,
              tls := some true, tlsAllowInvalidCertificates := some false }) ∧
      (pyIn "mongodb+srv://" url = false →
        (pyIn "mongodb://" url && pyIn "mongodb.net" url) = false →
        connection_options url = emptyOptions) := by
  intro url
  refine ⟨rfl, rfl, fun h1 => ?_, fun h1 h2 h3 => ?_, fun h1 h2 => ?_⟩
  · simp [connection_options, h1, srvOptions]
  · simp [connection_options, h1, h2, h3, atlasOptions]
  · simp [connection_options, h1, h2]

/-- Witness for C10 at one URL of each of the three shapes. -/
theorem c10_connection_options_by_url_witness :
    (pyIn "mongodb+srv://" "mongodb+srv://c.mongodb.net" = true ∧
      connection_options "mongodb+srv://c.mongodb.net"
        = { serverSelectionTimeoutMS := some 30000, connectTimeoutMS := some 20000,
            socketTimeoutMS := some 20000, retryWrites := some true,
            tls := none, tlsAllowInvalidCertificates := none }) ∧
    (pyIn "mongodb+srv://" "mongodb://c.mongodb.net" = false ∧
      pyIn "mongodb://" "mongodb://c.mongodb.net" = true ∧
      pyIn "mongodb.net" "mongodb://c.mongodb.net" = true ∧
      connection_options "mongodb://c.mongodb.net"
        = { serverSelectionTimeoutMS := some 30000, connectTimeoutMS := some 20000,
            socketTimeoutMS := some 20000, retryWrites := some true,
            tls := some true, tlsAllowInvalidCertificates := some false }) ∧
    (pyIn "mongodb+srv://" "mongodb://localhost:27017" = false ∧
      (pyIn "mongodb://" "mongodb://localhost:27017"
        && pyIn "mongodb.net" "mongodb://localhost:27017") = false ∧
      connection_options "mongodb://localhost:27017" = emptyOptions) :=
  ⟨⟨by decide, (c10_connection_options_by_url "mongodb+srv://c.mongodb.net").2.2.1 (by decide)⟩,
   ⟨by decide, by decide, by decide,
    (c10_connection_options_by_url "mongodb://c.mongodb.net").2.2.2.1
      (by decide) (by decide) (by decide)⟩,
   ⟨by decide, by decide,
    (c10_connection_options_by_url "mongodb://localhost:27017").2.2.2.2
      (by decide) (by decide)⟩⟩
